import Mathlib

/-!
Verification of the trace-generation repository's translation pipeline.

The Python source is shallowly embedded:
* `translation.py` — the Translation Engine (`translate_text_to_hindi`,
  `translate_reasoning_trace`), modelled as a pure function over an abstract
  generation client `Nat → String → GenResult` (attempt index, prompt sent);
  the blocking `time.sleep` retry delay and all logging are behaviour-free and
  omitted.
* `traceWithThink.py` — the SQLite record store (`setup_database`,
  `save_to_database`, `get_untranslated_traces`,
  `update_translation_in_database`) and the inline-mode UPDATE in `main`,
  modelled as pure state transformers on a `Database` value; timestamps are
  explicit `Nat` parameters.
* `translate_pipeline.py` — `check_database_status` and the batch loop of
  `translate_all_pending_traces`.

Python `str.strip` / `str.startswith` are modelled character-wise so that
concrete runs evaluate inside the kernel.
-/

/-- Characterwise core of Python's `str.strip()`: drop whitespace from both
ends of a character list. -/
def stripCharList (l : List Char) : List Char :=
  ((l.dropWhile Char.isWhitespace).reverse.dropWhile Char.isWhitespace).reverse

/-- Model of Python's `str.strip()` (used by `translation.py` as
`response['response'].strip()`). -/
def pyStrip (s : String) : String :=
  String.mk (stripCharList s.data)

/-- Characterwise list-prefix test. -/
def listStartsWith : List Char → List Char → Bool
  | [], _ => true
  | _ :: _, [] => false
  | a :: as, b :: bs => a == b && listStartsWith as bs

/-- Model of Python's `s.startswith(p)` for a single prefix string `p`. -/
def pyStartsWith (s p : String) : Bool :=
  listStartsWith p.data s.data

/-- Outcome of one `ollama.generate` call as observed by the caller:
`ok (some s)` — the call returned a truthy mapping with a `'response'` field
holding `s`; `ok none` — the call returned, but the response was falsy or had
no `'response'` field; `exn e` — the call raised an exception rendering as
`e`. -/
inductive GenResult where
  | ok (resp : Option String)
  | exn (msg : String)
deriving Repr, DecidableEq

/-- A generation client: the behaviour of `ollama.generate` at each attempt.
The first argument is the 0-based attempt index, the second the prompt the
engine sends. -/
def GenClient : Type := Nat → String → GenResult

/-- `MAX_RETRIES` from `config.py` (default in `translation.py` is also 3). -/
def MAX_RETRIES : Nat := 3

/-- The translation prompt built by `translate_text_to_hindi`
(`translation.py`, lines 64-69). -/
def translation_prompt (text : String) : String :=
  "Translate the following English text to Hindi. Maintain the technical terminology and logical flow. Provide only the Hindi translation without any additional text or explanations.\n\nEnglish text:\n" ++ text ++ "\n\nHindi translation:"

/-- The contextual prompt built by `translate_reasoning_trace`
(`translation.py`, lines 161-163). -/
def contextual_prompt (trace_text : String) : String :=
  "The following is a reasoning trace for a coding problem. Please translate it accurately to Hindi while maintaining the technical terminology and logical flow. Make sure not to use tough hindi words. Instead use simple hindi and use english words wherever technical terms are used.\n\n" ++ trace_text

/-- The return string of `translation.py` line 123: exhaustion after only
invalid (empty / unchanged / malformed) responses. -/
def invalid_exhausted_msg (max_retries : Nat) : String :=
  "Translation error after " ++ toString max_retries ++ " attempts: Failed to get valid translation"

/-- The return string of `translation.py` line 140: exhaustion where the final
attempt raised exception text `e`. -/
def exn_exhausted_msg (max_retries : Nat) (e : String) : String :=
  "Translation error after " ++ toString max_retries ++ " attempts: " ++ e

/-- The unreachable fallback return of `translation.py` line 143. -/
def fallback_msg : String := "Translation failed: Maximum retries exceeded"

/-- The retry loop of `translate_text_to_hindi` (`translation.py`,
lines 72-143). `fuel` is the number of loop iterations still available
(initially `max_retries`), `attempt` the current 0-based attempt index,
`calls` the number of client calls made so far. Returns the string the Python
function returns, paired with the total number of client calls. The
`time.sleep(RETRY_DELAY)` between attempts has no effect on the result and is
omitted. -/
def translate_go (max_retries : Nat) (client : GenClient) (tprompt text : String) :
    Nat → Nat → Nat → String × Nat
  | 0, _, calls => (fallback_msg, calls)
  | fuel + 1, attempt, calls =>
    match client attempt tprompt with
    | GenResult.ok (some raw) =>
      let translated_text := pyStrip raw
      if 0 < translated_text.length ∧ translated_text ≠ text then
        (translated_text, calls + 1)
      else if attempt < max_retries - 1 then
        translate_go max_retries client tprompt text fuel (attempt + 1) (calls + 1)
      else
        (invalid_exhausted_msg max_retries, calls + 1)
    | GenResult.ok none =>
      if attempt < max_retries - 1 then
        translate_go max_retries client tprompt text fuel (attempt + 1) (calls + 1)
      else
        (invalid_exhausted_msg max_retries, calls + 1)
    | GenResult.exn e =>
      if attempt < max_retries - 1 then
        translate_go max_retries client tprompt text fuel (attempt + 1) (calls + 1)
      else
        (exn_exhausted_msg max_retries e, calls + 1)

/-- `translate_text_to_hindi` (`translation.py`, lines 46-143), parameterised
by `max_retries` (the module-level `MAX_RETRIES`) and the generation client.
Returns the result string and the number of client calls made. -/
def translate_text_to_hindi (max_retries : Nat) (client : GenClient) (text : String) :
    String × Nat :=
  translate_go max_retries client (translation_prompt text) text max_retries 0 0

/-- `translate_reasoning_trace` (`translation.py`, lines 145-170): wraps the
trace in the contextual prompt and delegates to `translate_text_to_hindi`.
The `problem_title` argument is used only for logging and is omitted. -/
def translate_reasoning_trace (max_retries : Nat) (client : GenClient) (trace_text : String) :
    String × Nat :=
  translate_text_to_hindi max_retries client (contextual_prompt trace_text)

/-- A row of the `leetcode_reasoning` table (`traceWithThink.py`,
lines 186-197). `trace_hi_with_think` and `translated_at` are the nullable
columns; timestamps are abstract `Nat` values. -/
structure TraceRecord where
  id : Nat
  title : String
  content : String
  trace_en_with_think : String
  trace_hi_with_think : Option String
  translation_status : String
  created_at : Nat
  translated_at : Option Nat
deriving Repr, DecidableEq

/-- The persisted store: the table rows plus the AUTOINCREMENT counter for the
next `id`. -/
structure Database where
  rows : List TraceRecord
  nextId : Nat
deriving Repr, DecidableEq

/-- `setup_database` (`traceWithThink.py`, lines 167-212) on a fresh file: an
empty table, AUTOINCREMENT starting at 1. -/
def setup_database : Database :=
  { rows := [], nextId := 1 }

/-- An element of the `entries_with_traces` argument of `save_to_database`:
`trace_hi_with_think = none` models the key being absent (or `None`). -/
structure EntryWithTrace where
  title : String
  content : String
  trace_en_with_think : String
  trace_hi_with_think : Option String
deriving Repr, DecidableEq

/-- The row inserted by the completed branch of `save_to_database`
(`traceWithThink.py`, lines 234-238). -/
def completedInsertRow (db : Database) (e : EntryWithTrace) (h : String) (now : Nat) :
    TraceRecord :=
  { id := db.nextId, title := e.title, content := e.content,
    trace_en_with_think := e.trace_en_with_think, trace_hi_with_think := some h,
    translation_status := "completed", created_at := now, translated_at := some now }

/-- The row inserted by the pending branch of `save_to_database`
(`traceWithThink.py`, lines 241-244): NULL translation, default status
`'pending'`, NULL `translated_at`. -/
def pendingInsertRow (db : Database) (e : EntryWithTrace) (now : Nat) : TraceRecord :=
  { id := db.nextId, title := e.title, content := e.content,
    trace_en_with_think := e.trace_en_with_think, trace_hi_with_think := none,
    translation_status := "pending", created_at := now, translated_at := none }

/-- One iteration of the insert loop of `save_to_database`
(`traceWithThink.py`, lines 231-244): if the entry carries a truthy
`trace_hi_with_think` (present and non-empty) the row is inserted with
`translation_status = 'completed'` and `translated_at = now`; otherwise it is
inserted with a NULL translation and `translation_status = 'pending'`. -/
def save_entry (db : Database) (e : EntryWithTrace) (now : Nat) : Database :=
  match e.trace_hi_with_think with
  | some h =>
    if h ≠ "" then
      { rows := db.rows ++ [completedInsertRow db e h now], nextId := db.nextId + 1 }
    else
      { rows := db.rows ++ [pendingInsertRow db e now], nextId := db.nextId + 1 }
  | none =>
    { rows := db.rows ++ [pendingInsertRow db e now], nextId := db.nextId + 1 }

/-- `save_to_database` (`traceWithThink.py`, lines 214-264): insert each entry
in order. All inserts in one call share the commit timestamp `now`. -/
def save_to_database (db : Database) (entries : List EntryWithTrace) (now : Nat) : Database :=
  entries.foldl (fun d e => save_entry d e now) db

/-- The WHERE predicate of `get_untranslated_traces` (`traceWithThink.py`,
line 285): `translation_status = 'pending' OR trace_hi_with_think IS NULL`. -/
def isUntranslated (r : TraceRecord) : Bool :=
  r.translation_status == "pending" || r.trace_hi_with_think.isNone

/-- The three columns projected by `get_untranslated_traces`
(`traceWithThink.py`, line 283). -/
structure UntranslatedRow where
  id : Nat
  title : String
  trace_en_with_think : String
deriving Repr, DecidableEq

/-- `ORDER BY id ASC` as a relation on rows. -/
def idLe (a b : TraceRecord) : Prop := a.id ≤ b.id

instance : DecidableRel idLe := fun a b => Nat.decLe a.id b.id

instance : IsTotal TraceRecord idLe := ⟨fun a b => Nat.le_total a.id b.id⟩

instance : IsTrans TraceRecord idLe := ⟨fun _ _ _ => Nat.le_trans⟩

/-- `get_untranslated_traces` (`traceWithThink.py`, lines 266-309):
`SELECT id, title, trace_en_with_think FROM leetcode_reasoning WHERE
translation_status = 'pending' OR trace_hi_with_think IS NULL ORDER BY id
ASC`. -/
def get_untranslated_traces (db : Database) : List UntranslatedRow :=
  (List.insertionSort idLe (db.rows.filter isUntranslated)).map
    (fun r => { id := r.id, title := r.title, trace_en_with_think := r.trace_en_with_think })

/-- `update_translation_in_database` (`traceWithThink.py`, lines 311-342):
`UPDATE leetcode_reasoning SET trace_hi_with_think = ?, translation_status =
'completed', translated_at = ? WHERE id = ?`. A missing id matches zero rows;
SQLite raises no error in that case. -/
def update_translation_in_database (db : Database) (trace_id : Nat) (hindi_trace : String)
    (now : Nat) : Database :=
  { db with rows := db.rows.map (fun r =>
      if r.id = trace_id then
        { r with trace_hi_with_think := some hindi_trace,
                 translation_status := "completed", translated_at := some now }
      else r) }

/-- The inline-mode UPDATE in `main` (`traceWithThink.py`, lines 481-487):
`UPDATE leetcode_reasoning SET trace_hi_with_think = ?, translation_status =
'completed', translated_at = ? WHERE title = ? AND trace_en_with_think = ?` —
keyed on the (title, primary trace) pair, not on the id. -/
def inline_update_translation (db : Database) (title trace_en hindi_trace : String)
    (now : Nat) : Database :=
  { db with rows := db.rows.map (fun r =>
      if r.title = title ∧ r.trace_en_with_think = trace_en then
        { r with trace_hi_with_think := some hindi_trace,
                 translation_status := "completed", translated_at := some now }
      else r) }

/-- The dictionary returned by `check_database_status`
(`translate_pipeline.py`, lines 72-76). -/
structure DbStatus where
  total_traces : Nat
  completed_translations : Nat
  pending_translations : Nat
deriving Repr, DecidableEq

/-- `check_database_status` (`translate_pipeline.py`, lines 43-91): total row
count; completed = `translation_status = 'completed' AND trace_hi_with_think
IS NOT NULL`; pending = `translation_status = 'pending' OR trace_hi_with_think
IS NULL`. -/
def check_database_status (db : Database) : DbStatus :=
  { total_traces := db.rows.length,
    completed_translations :=
      (db.rows.filter (fun r =>
        r.translation_status == "completed" && r.trace_hi_with_think.isSome)).length,
    pending_translations :=
      (db.rows.filter (fun r =>
        r.translation_status == "pending" || r.trace_hi_with_think.isNone)).length }

/-- The error-message test of `translate_all_pending_traces`
(`translate_pipeline.py`, line 178): `hindi_trace.startswith(("Translation
error:", "Translation timeout:", "Translation request error:", "Unexpected
translation error:"))`. -/
def error_message_markers : List String :=
  ["Translation error:", "Translation timeout:", "Translation request error:",
   "Unexpected translation error:"]

/-- Whether the batch loop classifies a translation result as a failure
(`translate_pipeline.py`, line 178). -/
def is_detected_error (s : String) : Bool :=
  error_message_markers.any (fun p => pyStartsWith s p)

/-- The per-run counters of `translate_all_pending_traces`
(`translate_pipeline.py`, lines 157-158). -/
structure RunStats where
  successful_translations : Nat
  failed_translations : Nat
deriving Repr, DecidableEq

/-- One iteration of the batch loop (`translate_pipeline.py`, lines 160-205):
translate the trace; if the result string matches an error marker, count a
failure and skip the update, otherwise write it back and count a success. -/
def translate_batch_step (max_retries : Nat) (client : GenClient) (now : Nat)
    (acc : Database × RunStats) (t : UntranslatedRow) : Database × RunStats :=
  let hindi_trace := (translate_reasoning_trace max_retries client t.trace_en_with_think).1
  if is_detected_error hindi_trace then
    (acc.1, { acc.2 with failed_translations := acc.2.failed_translations + 1 })
  else
    (update_translation_in_database acc.1 t.id hindi_trace now,
     { acc.2 with successful_translations := acc.2.successful_translations + 1 })

/-- `translate_all_pending_traces` (`translate_pipeline.py`, lines 93-237):
check status, return untouched if nothing is pending, otherwise fetch the
untranslated rows once and process them in order. All updates in one run share
the timestamp `now`. -/
def translate_all_pending_traces (max_retries : Nat) (client : GenClient) (db : Database)
    (now : Nat) : Database × RunStats :=
  let status := check_database_status db
  if status.pending_translations = 0 then
    (db, { successful_translations := 0, failed_translations := 0 })
  else
    (get_untranslated_traces db).foldl (translate_batch_step max_retries client now)
      (db, { successful_translations := 0, failed_translations := 0 })

/-! ## Properties of the Translation Engine -/

/-- The three failure strings `translate_text_to_hindi` can return instead of
a translation (lines 123, 140 and 143 of `translation.py`). -/
def TranslationFailureString (max_retries : Nat) (s : String) : Prop :=
  s = fallback_msg ∨ s = invalid_exhausted_msg max_retries ∨
    ∃ e, s = exn_exhausted_msg max_retries e

/-- A single client call that does not produce an accepted translation of
`text`: an exception, a malformed response, or a response whose stripped text
is empty or equal to `text`. -/
def attempt_fails (text : String) : GenResult → Prop
  | GenResult.ok (some raw) => ¬(0 < (pyStrip raw).length ∧ pyStrip raw ≠ text)
  | GenResult.ok none => True
  | GenResult.exn _ => True

/-- The retry loop makes at most `fuel` further client calls. -/
theorem translate_go_calls_le (max_retries : Nat) (client : GenClient) (p t : String) :
    ∀ fuel attempt calls,
      (translate_go max_retries client p t fuel attempt calls).2 ≤ calls + fuel := by
  intro fuel
  induction fuel with
  | zero => intro attempt calls; simp [translate_go]
  | succ fuel ih =>
    intro attempt calls
    simp only [translate_go]
    cases hc : client attempt p with
    | ok resp =>
      cases resp with
      | some raw =>
        by_cases hv : 0 < (pyStrip raw).length ∧ pyStrip raw ≠ t
        · simp only [if_pos hv]; omega
        · simp only [if_neg hv]
          by_cases hlt : attempt < max_retries - 1
          · simp only [if_pos hlt]
            have := ih (attempt + 1) (calls + 1); omega
          · simp only [if_neg hlt]; omega
      | none =>
        by_cases hlt : attempt < max_retries - 1
        · simp only [if_pos hlt]
          have := ih (attempt + 1) (calls + 1); omega
        · simp only [if_neg hlt]; omega
    | exn e =>
      by_cases hlt : attempt < max_retries - 1
      · simp only [if_pos hlt]
        have := ih (attempt + 1) (calls + 1); omega
      · simp only [if_neg hlt]; omega

/-- If every client call fails, the loop consumes all its fuel, one call per
unit, and ends in a failure string. -/
theorem translate_go_all_fail (max_retries : Nat) (client : GenClient) (p t : String)
    (hfail : ∀ i, attempt_fails t (client i p)) :
    ∀ fuel attempt calls, attempt + fuel = max_retries →
      (translate_go max_retries client p t fuel attempt calls).2 = calls + fuel ∧
      TranslationFailureString max_retries
        (translate_go max_retries client p t fuel attempt calls).1 := by
  intro fuel
  induction fuel with
  | zero =>
    intro attempt calls _
    exact ⟨rfl, Or.inl rfl⟩
  | succ fuel ih =>
    intro attempt calls hinv
    simp only [translate_go]
    have hf := hfail attempt
    cases hc : client attempt p with
    | ok resp =>
      rw [hc] at hf
      cases resp with
      | some raw =>
        simp only [attempt_fails] at hf
        simp only [if_neg hf]
        by_cases hlt : attempt < max_retries - 1
        · simp only [if_pos hlt]
          have := ih (attempt + 1) (calls + 1) (by omega)
          exact ⟨by rw [this.1]; omega, this.2⟩
        · have hfuel : fuel = 0 := by omega
          subst hfuel
          simp only [if_neg hlt]
          exact ⟨by simp, Or.inr (Or.inl rfl)⟩
      | none =>
        by_cases hlt : attempt < max_retries - 1
        · simp only [if_pos hlt]
          have := ih (attempt + 1) (calls + 1) (by omega)
          exact ⟨by rw [this.1]; omega, this.2⟩
        · have hfuel : fuel = 0 := by omega
          subst hfuel
          simp only [if_neg hlt]
          exact ⟨by simp, Or.inr (Or.inl rfl)⟩
    | exn e =>
      by_cases hlt : attempt < max_retries - 1
      · simp only [if_pos hlt]
        have := ih (attempt + 1) (calls + 1) (by omega)
        exact ⟨by rw [this.1]; omega, this.2⟩
      · have hfuel : fuel = 0 := by omega
        subst hfuel
        simp only [if_neg hlt]
        exact ⟨by simp, Or.inr (Or.inr ⟨e, rfl⟩)⟩

/-- C4. The Translation Engine makes at most `MAX_RETRIES` calls to the
generation client, and with a client that fails (raises or returns invalid
output) on every call it returns a failure string after exactly `MAX_RETRIES`
calls, not more. Stated for every retry limit; the configured value is
`MAX_RETRIES = 3`. -/
theorem C4_retry_bound (max_retries : Nat) (client : GenClient) (text : String) :
    (translate_text_to_hindi max_retries client text).2 ≤ max_retries ∧
    ((∀ i, attempt_fails text (client i (translation_prompt text))) →
      (translate_text_to_hindi max_retries client text).2 = max_retries ∧
      TranslationFailureString max_retries (translate_text_to_hindi max_retries client text).1) := by
  constructor
  · have := translate_go_calls_le max_retries client (translation_prompt text) text max_retries 0 0
    simpa [translate_text_to_hindi] using this
  · intro hfail
    have := translate_go_all_fail max_retries client (translation_prompt text) text hfail
      max_retries 0 0 (by omega)
    simpa [translate_text_to_hindi] using this

/-- Witness for C4 at the configured limit 3, with a client that raises on
every call. -/
theorem C4_witness :
    (translate_text_to_hindi 3 (fun _ _ => GenResult.exn "boom") "hi").2 = 3 ∧
    TranslationFailureString 3
      (translate_text_to_hindi 3 (fun _ _ => GenResult.exn "boom") "hi").1 :=
  (C4_retry_bound 3 (fun _ _ => GenResult.exn "boom") "hi").2 (fun _ => trivial)

/-- If every attempt before the last fails and the last client call raises
exception text `e`, the loop returns the exception-exhaustion string built
from `e`, after one call per attempt. -/
theorem translate_go_exn_final (max_retries : Nat) (client : GenClient) (p t e : String)
    (hfail : ∀ i, i < max_retries - 1 → attempt_fails t (client i p))
    (hlast : client (max_retries - 1) p = GenResult.exn e) :
    ∀ fuel attempt calls, attempt + fuel = max_retries → 0 < fuel →
      translate_go max_retries client p t fuel attempt calls =
        (exn_exhausted_msg max_retries e, calls + fuel) := by
  intro fuel
  induction fuel with
  | zero => intro attempt calls _ h0; omega
  | succ fuel ih =>
    intro attempt calls hinv _
    simp only [translate_go]
    by_cases hlt : attempt < max_retries - 1
    · have hf := hfail attempt hlt
      cases hc : client attempt p with
      | ok resp =>
        rw [hc] at hf
        cases resp with
        | some raw =>
          simp only [attempt_fails] at hf
          simp only [if_neg hf, if_pos hlt]
          have := ih (attempt + 1) (calls + 1) (by omega) (by omega)
          rw [this]; exact congrArg _ (by omega)
        | none =>
          simp only [if_pos hlt]
          have := ih (attempt + 1) (calls + 1) (by omega) (by omega)
          rw [this]; exact congrArg _ (by omega)
      | exn e' =>
        simp only [if_pos hlt]
        have := ih (attempt + 1) (calls + 1) (by omega) (by omega)
        rw [this]; exact congrArg _ (by omega)
    · have hatt : attempt = max_retries - 1 := by omega
      have hfuel : fuel = 0 := by omega
      subst hfuel
      subst hatt
      rw [hlast]
      simp [if_neg hlt]

/-- C10. `translate_text_to_hindi` is a total function into strings — in the
source every exception from the client is caught inside the retry loop, so no
exception escapes to the caller — and a client exception with text `e` on the
final attempt (all earlier attempts having failed) is converted into the
returned string `"Translation error after {MAX_RETRIES} attempts: " ++ e`,
after exactly `max_retries` client calls. -/
theorem C10_exception_converted_to_error_string (max_retries : Nat) (client : GenClient)
    (text e : String) (hmr : 0 < max_retries)
    (hfail : ∀ i, i < max_retries - 1 → attempt_fails text (client i (translation_prompt text)))
    (hlast : client (max_retries - 1) (translation_prompt text) = GenResult.exn e) :
    translate_text_to_hindi max_retries client text = (exn_exhausted_msg max_retries e, max_retries) := by
  have := translate_go_exn_final max_retries client (translation_prompt text) text e hfail hlast
    max_retries 0 0 (by omega) hmr
  simpa [translate_text_to_hindi] using this

/-- Witness for C10: a client that raises `"boom"` on all three attempts. -/
theorem C10_witness :
    translate_text_to_hindi 3 (fun _ _ => GenResult.exn "boom") "hi" =
      (exn_exhausted_msg 3 "boom", 3) :=
  C10_exception_converted_to_error_string 3 (fun _ _ => GenResult.exn "boom") "hi" "boom"
    (by decide) (fun _ _ => trivial) rfl

set_option maxRecDepth 20000 in
/-- C3 counterexample. A client that echoes its input prompt unchanged on
every call IS returned as a success: the engine's validation compares the
response against its `text` argument, but the client receives the wrapping
`translation_prompt text`, which always differs from `text`, so the echoed
prompt passes validation on the very first of the three attempts (one client
call, not three, and the result is the echoed prompt itself rather than any
failure string). -/
theorem C3_counterexample :
    translate_text_to_hindi 3 (fun _ tprompt => GenResult.ok (some tprompt)) "hello" =
      (translation_prompt "hello", 1) := rfl

/-- If every client call returns exactly the engine's (already stripped)
`text` argument, every attempt is rejected by the identity check and the loop
exhausts its fuel. -/
theorem translate_go_text_echo (max_retries : Nat) (client : GenClient) (p t : String)
    (hstrip : pyStrip t = t)
    (hecho : ∀ i, client i p = GenResult.ok (some t)) :
    ∀ fuel attempt calls, attempt + fuel = max_retries → 0 < fuel →
      translate_go max_retries client p t fuel attempt calls =
        (invalid_exhausted_msg max_retries, calls + fuel) := by
  intro fuel
  induction fuel with
  | zero => intro attempt calls _ h0; omega
  | succ fuel ih =>
    intro attempt calls hinv _
    simp only [translate_go]
    rw [hecho attempt]
    have hrej : ¬(0 < (pyStrip t).length ∧ pyStrip t ≠ t) := by
      rintro ⟨-, hne⟩; exact hne hstrip
    simp only [if_neg hrej]
    by_cases hlt : attempt < max_retries - 1
    · simp only [if_pos hlt]
      have := ih (attempt + 1) (calls + 1) (by omega) (by omega)
      rw [this]; exact congrArg _ (by omega)
    · have hfuel : fuel = 0 := by omega
      subst hfuel
      simp [if_neg hlt]

/-- C3 amended. The engine's validation accepts a response only if its
STRIPPED text is non-empty and differs from the engine's `text` argument.
Hence a client that echoes the input text itself (rather than the full
prompt) is never accepted PROVIDED the text is already whitespace-stripped
(`pyStrip text = text`): the engine then rejects every attempt and returns
the retry-exhaustion failure string after exactly `max_retries` calls. The
proviso is necessary: for a text with boundary whitespace such as `" hi"`,
the stripped echo `"hi"` differs from the text and is accepted on the first
call — the identity check compares the stripped response against the
unstripped text (`translation.py` line 93). -/
theorem C3_amended_text_echo_rejected (max_retries : Nat) (client : GenClient) (text : String)
    (hmr : 0 < max_retries) (hstrip : pyStrip text = text)
    (hecho : ∀ i, client i (translation_prompt text) = GenResult.ok (some text)) :
    translate_text_to_hindi max_retries client text =
      (invalid_exhausted_msg max_retries, max_retries) := by
  have := translate_go_text_echo max_retries client (translation_prompt text) text hstrip hecho
    max_retries 0 0 (by omega) hmr
  simpa [translate_text_to_hindi] using this

/-- Witness for the amended C3: a client that always answers with the bare
input text `"hello"` is rejected on all three attempts. -/
theorem C3_witness :
    translate_text_to_hindi 3 (fun _ _ => GenResult.ok (some "hello")) "hello" =
      (invalid_exhausted_msg 3, 3) :=
  C3_amended_text_echo_rejected 3 (fun _ _ => GenResult.ok (some "hello")) "hello"
    (by decide) (by decide) (fun _ => rfl)

/-! ## Properties of the Record Store and the Orchestrator -/

/-- A store holding exactly one freshly saved, still pending record. -/
def sampleRow : TraceRecord :=
  { id := 1, title := "Two Sum", content := "c", trace_en_with_think := "t",
    trace_hi_with_think := none, translation_status := "pending",
    created_at := 0, translated_at := none }

/-- The store `sampleRow` lives in (AUTOINCREMENT already advanced past 1). -/
def sampleDb : Database := { rows := [sampleRow], nextId := 2 }

/-- A generation client whose every call raises, so every translation fails
with `"Translation error after 3 attempts: boom"`. -/
def failing_client : GenClient := fun _ _ => GenResult.exn "boom"

/-- C1, evaluated at the failing input. On a store with one pending record and
a client that raises on all attempts, the batch run of
`translate_all_pending_traces` does NOT leave the record pending: the engine's
failure string `"Translation error after 3 attempts: boom"` matches none of
the four error markers the loop checks (they all expect a colon right after
the first word pair), so the run writes the failure string into the record,
marks it `completed`, and counts it as a successful translation —
contradicting both the spec and the loop's own comment stating that error
messages must not be written back. -/
theorem C1_batch_run_applies_engine_failure :
    (translate_all_pending_traces MAX_RETRIES failing_client sampleDb 1).1.rows =
      [{ id := 1, title := "Two Sum", content := "c", trace_en_with_think := "t",
         trace_hi_with_think := some "Translation error after 3 attempts: boom",
         translation_status := "completed", created_at := 0, translated_at := some 1 }] ∧
    (translate_all_pending_traces MAX_RETRIES failing_client sampleDb 1).2 =
      { successful_translations := 1, failed_translations := 0 } := by
  exact ⟨by decide, by decide⟩

/-- C5 counterexample. Updating an id that is not in the store does not fail
with any error: the UPDATE statement simply matches zero rows and
`update_translation_in_database` returns normally with the store unchanged.
(`sampleDb` holds only id 1; the call targets id 2.) -/
theorem C5_counterexample :
    update_translation_in_database sampleDb 2 "x" 5 = sampleDb := by decide

/-- C5 amended. For an id not present in the store,
`update_translation_in_database` completes without error and leaves the store
unchanged — a silent no-op, not a `NotFound` failure. -/
theorem C5_amended_missing_id_is_noop (db : Database) (trace_id : Nat) (hindi_trace : String)
    (now : Nat) (hid : ∀ r ∈ db.rows, r.id ≠ trace_id) :
    update_translation_in_database db trace_id hindi_trace now = db := by
  unfold update_translation_in_database
  have hrows : db.rows.map (fun r =>
      if r.id = trace_id then
        { r with trace_hi_with_think := some hindi_trace,
                 translation_status := "completed", translated_at := some now }
      else r) = db.rows.map id := by
    apply List.map_congr_left
    intro r hr
    simp [hid r hr]
  rw [hrows, List.map_id]

/-- Witness for the amended C5. -/
theorem C5_witness : update_translation_in_database sampleDb 7 "y" 3 = sampleDb :=
  C5_amended_missing_id_is_noop sampleDb 7 "y" 3 (by decide)

/-- C7. Applying `update_translation_in_database` twice with the same id and
the same text leaves every record's `trace_hi_with_think` and
`translation_status` exactly as after the first call (only `translated_at`
can differ, which the claim allows). Stated for an id that exists in the
store, as the claim does. -/
theorem C7_apply_translation_idempotent (db : Database) (trace_id : Nat) (text : String)
    (t1 t2 : Nat) (_hex : ∃ r ∈ db.rows, r.id = trace_id) :
    (update_translation_in_database (update_translation_in_database db trace_id text t1)
        trace_id text t2).rows.map
      (fun r => (r.trace_hi_with_think, r.translation_status)) =
    (update_translation_in_database db trace_id text t1).rows.map
      (fun r => (r.trace_hi_with_think, r.translation_status)) := by
  unfold update_translation_in_database
  simp only [List.map_map]
  apply List.map_congr_left
  intro r _
  by_cases hid : r.id = trace_id <;> simp [Function.comp, hid]

/-- Witness for C7 on the one-record store. -/
theorem C7_witness :
    (update_translation_in_database (update_translation_in_database sampleDb 1 "xyz" 1)
        1 "xyz" 2).rows.map
      (fun r => (r.trace_hi_with_think, r.translation_status)) =
    (update_translation_in_database sampleDb 1 "xyz" 1).rows.map
      (fun r => (r.trace_hi_with_think, r.translation_status)) :=
  C7_apply_translation_idempotent sampleDb 1 "xyz" 1 2 ⟨sampleRow, by decide, rfl⟩

/-- C6. `get_untranslated_traces` returns exactly (the projections of) the
records satisfying `translation_status = 'pending' OR trace_hi_with_think IS
NULL`, ordered by id ascending. -/
theorem C6_fetch_untranslated_spec (db : Database) :
    (∀ row : UntranslatedRow,
      row ∈ get_untranslated_traces db ↔
        ∃ r ∈ db.rows,
          (r.translation_status = "pending" ∨ r.trace_hi_with_think = none) ∧
          row = { id := r.id, title := r.title,
                  trace_en_with_think := r.trace_en_with_think }) ∧
    List.Pairwise (fun a b : UntranslatedRow => a.id ≤ b.id) (get_untranslated_traces db) := by
  constructor
  · intro row
    simp only [get_untranslated_traces, List.mem_map]
    constructor
    · rintro ⟨r, hr, rfl⟩
      have hr' := (List.perm_insertionSort idLe (db.rows.filter isUntranslated)).mem_iff.mp hr
      rw [List.mem_filter] at hr'
      refine ⟨r, hr'.1, ?_, rfl⟩
      have := hr'.2
      simpa [isUntranslated, Option.isNone_iff_eq_none] using this
    · rintro ⟨r, hrmem, hcond, rfl⟩
      refine ⟨r, ?_, rfl⟩
      rw [(List.perm_insertionSort idLe (db.rows.filter isUntranslated)).mem_iff,
        List.mem_filter]
      refine ⟨hrmem, ?_⟩
      simpa [isUntranslated, Option.isNone_iff_eq_none] using hcond
  · have hs := List.sorted_insertionSort idLe (db.rows.filter isUntranslated)
    simp only [get_untranslated_traces, List.pairwise_map]
    exact hs.imp (fun h => h)

/-- C9. The inline-mode UPDATE of `main` is keyed on
`(title, trace_en_with_think)`, not on the record id: every record sharing
that key pair receives the translation, the `completed` status and the
timestamp, while every other record is untouched. In particular, when two or
more records share the same title and the same primary trace, one inline
translation completes all of them at once. -/
theorem C9_inline_update_keyed_on_title_and_trace (db : Database)
    (title trace_en hindi_trace : String) (now : Nat) :
    (∀ r ∈ db.rows, r.title = title → r.trace_en_with_think = trace_en →
      { r with trace_hi_with_think := some hindi_trace,
               translation_status := "completed", translated_at := some now } ∈
        (inline_update_translation db title trace_en hindi_trace now).rows) ∧
    (∀ r ∈ db.rows, ¬(r.title = title ∧ r.trace_en_with_think = trace_en) →
      r ∈ (inline_update_translation db title trace_en hindi_trace now).rows) := by
  constructor
  · intro r hr h1 h2
    have hcond : r.title = title ∧ r.trace_en_with_think = trace_en := ⟨h1, h2⟩
    have : (fun r : TraceRecord =>
        if r.title = title ∧ r.trace_en_with_think = trace_en then
          { r with trace_hi_with_think := some hindi_trace,
                   translation_status := "completed", translated_at := some now }
        else r) r =
      { r with trace_hi_with_think := some hindi_trace,
               translation_status := "completed", translated_at := some now } := by
      simp [hcond]
    rw [inline_update_translation, ← this]
    exact List.mem_map_of_mem _ hr
  · intro r hr hcond
    have : (fun r : TraceRecord =>
        if r.title = title ∧ r.trace_en_with_think = trace_en then
          { r with trace_hi_with_think := some hindi_trace,
                   translation_status := "completed", translated_at := some now }
        else r) r = r := by
      simp [hcond]
    rw [inline_update_translation, ← this]
    exact List.mem_map_of_mem _ hr

/-- First of two records sharing the same title and primary trace. -/
def dupRow1 : TraceRecord :=
  { id := 1, title := "Two Sum", content := "c1", trace_en_with_think := "t",
    trace_hi_with_think := none, translation_status := "pending",
    created_at := 0, translated_at := none }

/-- Second of two records sharing the same title and primary trace. -/
def dupRow2 : TraceRecord :=
  { id := 2, title := "Two Sum", content := "c2", trace_en_with_think := "t",
    trace_hi_with_think := none, translation_status := "pending",
    created_at := 0, translated_at := none }

/-- A store with two records sharing the same title and the same primary
trace (as produced by running the inline pipeline twice over the same input
file, since `save_to_database` always INSERTs). -/
def duplicatedDb : Database := { rows := [dupRow1, dupRow2], nextId := 3 }

/-- Witness for C9: one inline update with the shared key completes both
records of `duplicatedDb`. -/
theorem C9_witness :
    ({ dupRow1 with trace_hi_with_think := some "anuvaad",
                    translation_status := "completed", translated_at := some 9 }) ∈
      (inline_update_translation duplicatedDb "Two Sum" "t" "anuvaad" 9).rows ∧
    ({ dupRow2 with trace_hi_with_think := some "anuvaad",
                    translation_status := "completed", translated_at := some 9 }) ∈
      (inline_update_translation duplicatedDb "Two Sum" "t" "anuvaad" 9).rows :=
  ⟨(C9_inline_update_keyed_on_title_and_trace duplicatedDb "Two Sum" "t" "anuvaad" 9).1
      dupRow1 (by decide) rfl rfl,
   (C9_inline_update_keyed_on_title_and_trace duplicatedDb "Two Sum" "t" "anuvaad" 9).1
      dupRow2 (by decide) rfl rfl⟩

/-- The §3 data-model invariant: a record's status is `'completed'` exactly
when its translation is non-null and non-empty. -/
def statusInvariant (db : Database) : Prop :=
  ∀ r ∈ db.rows,
    (r.translation_status = "completed" ↔
      (r.trace_hi_with_think ≠ none ∧ r.trace_hi_with_think ≠ some ""))

instance (db : Database) : Decidable (statusInvariant db) := by
  unfold statusInvariant
  infer_instance

/-- C8. On a store satisfying the §3 data model (the invariant plus statuses
drawn from {pending, completed}), `check_database_status` returns the total
record count, the number of records with status `'completed'`, and the number
with status `'pending'`. -/
theorem C8_status_summary_counts (db : Database)
    (hinv : statusInvariant db)
    (hstatus : ∀ r ∈ db.rows,
      r.translation_status = "pending" ∨ r.translation_status = "completed") :
    check_database_status db =
      { total_traces := db.rows.length,
        completed_translations :=
          (db.rows.filter (fun r => r.translation_status == "completed")).length,
        pending_translations :=
          (db.rows.filter (fun r => r.translation_status == "pending")).length } := by
  unfold check_database_status
  have hcomp : db.rows.filter (fun r =>
      r.translation_status == "completed" && r.trace_hi_with_think.isSome) =
      db.rows.filter (fun r => r.translation_status == "completed") := by
    apply List.filter_congr
    intro r hr
    by_cases hc : r.translation_status = "completed"
    · have hne := ((hinv r hr).mp hc).1
      simp [hc, Option.isSome_iff_ne_none, hne]
    · simp [hc]
  have hpend : db.rows.filter (fun r =>
      r.translation_status == "pending" || r.trace_hi_with_think.isNone) =
      db.rows.filter (fun r => r.translation_status == "pending") := by
    apply List.filter_congr
    intro r hr
    rcases hstatus r hr with hp | hc
    · simp [hp]
    · have hne := ((hinv r hr).mp hc).1
      have hcp : r.translation_status ≠ "pending" := by rw [hc]; decide
      have hs : r.trace_hi_with_think.isSome = true := Option.isSome_iff_ne_none.mpr hne
      simp [hcp, hs, hne]
  rw [hcomp, hpend]

/-- A store with 5 records: 3 completed, 2 pending. -/
def fiveRecordDb : Database :=
  { rows := [
      { id := 1, title := "p1", content := "c", trace_en_with_think := "t",
        trace_hi_with_think := some "h1", translation_status := "completed",
        created_at := 0, translated_at := some 1 },
      { id := 2, title := "p2", content := "c", trace_en_with_think := "t",
        trace_hi_with_think := some "h2", translation_status := "completed",
        created_at := 0, translated_at := some 1 },
      { id := 3, title := "p3", content := "c", trace_en_with_think := "t",
        trace_hi_with_think := some "h3", translation_status := "completed",
        created_at := 0, translated_at := some 1 },
      { id := 4, title := "p4", content := "c", trace_en_with_think := "t",
        trace_hi_with_think := none, translation_status := "pending",
        created_at := 0, translated_at := none },
      { id := 5, title := "p5", content := "c", trace_en_with_think := "t",
        trace_hi_with_think := none, translation_status := "pending",
        created_at := 0, translated_at := none }],
    nextId := 6 }

/-- Witness for C8: the 5/3/2 store from the spec scenario. -/
theorem C8_witness : check_database_status fiveRecordDb =
    { total_traces := 5, completed_translations := 3, pending_translations := 2 } :=
  (C8_status_summary_counts fiveRecordDb (by decide) (by decide)).trans (by decide)

/-- C2 counterexample. The store operations themselves do not maintain the
invariant: `update_translation_in_database` unconditionally sets
`translation_status = 'completed'`, so applying it with the empty string to a
freshly saved record yields a record that is completed with a non-null but
EMPTY translation. -/
theorem C2_counterexample :
    ¬ statusInvariant
      (update_translation_in_database
        (save_to_database setup_database
          [{ title := "Two Sum", content := "c", trace_en_with_think := "t",
             trace_hi_with_think := none }] 0)
        1 "" 1) := by decide

/-- A record-store operation of the kinds named in the claim: a batch of
inserts via `save_to_database`, an id-keyed `update_translation_in_database`,
or the inline-mode title/trace-keyed UPDATE. -/
inductive StoreOp where
  | save (entries : List EntryWithTrace) (now : Nat)
  | update (trace_id : Nat) (hindi_trace : String) (now : Nat)
  | inlineUpdate (title trace_en hindi_trace : String) (now : Nat)

/-- Run one store operation. -/
def applyOp (db : Database) : StoreOp → Database
  | StoreOp.save entries now => save_to_database db entries now
  | StoreOp.update trace_id hindi_trace now =>
      update_translation_in_database db trace_id hindi_trace now
  | StoreOp.inlineUpdate title trace_en hindi_trace now =>
      inline_update_translation db title trace_en hindi_trace now

/-- The restriction the counterexample forces: every update supplies a
non-empty translation text. All strings `translate_text_to_hindi` can return
are non-empty, so every text the Orchestrator actually writes satisfies
this. -/
def opHasNonEmptyText : StoreOp → Prop
  | StoreOp.save _ _ => True
  | StoreOp.update _ hindi_trace _ => hindi_trace ≠ ""
  | StoreOp.inlineUpdate _ _ hindi_trace _ => hindi_trace ≠ ""

instance : DecidablePred opHasNonEmptyText
  | StoreOp.save _ _ => Decidable.isTrue trivial
  | StoreOp.update _ h _ => inferInstanceAs (Decidable (h ≠ ""))
  | StoreOp.inlineUpdate _ _ h _ => inferInstanceAs (Decidable (h ≠ ""))

/-- The pending-branch row satisfies the invariant clause. -/
theorem pendingInsertRow_invariant (db : Database) (e : EntryWithTrace) (now : Nat) :
    (pendingInsertRow db e now).translation_status = "completed" ↔
      ((pendingInsertRow db e now).trace_hi_with_think ≠ none ∧
       (pendingInsertRow db e now).trace_hi_with_think ≠ some "") := by
  show ("pending" = "completed" ↔
    ((none : Option String) ≠ none ∧ (none : Option String) ≠ some ""))
  decide

/-- The completed-branch row satisfies the invariant clause when the inserted
translation is non-empty. -/
theorem completedInsertRow_invariant (db : Database) (e : EntryWithTrace) (h : String)
    (now : Nat) (hne : h ≠ "") :
    (completedInsertRow db e h now).translation_status = "completed" ↔
      ((completedInsertRow db e h now).trace_hi_with_think ≠ none ∧
       (completedInsertRow db e h now).trace_hi_with_think ≠ some "") := by
  constructor
  · intro _
    constructor
    · simp [completedInsertRow]
    · simp [completedInsertRow, hne]
  · intro _
    rfl

/-- `save_entry` preserves the invariant: the completed branch inserts a
non-empty translation, the pending branch a NULL one with status pending. -/
theorem statusInvariant_save_entry (db : Database) (e : EntryWithTrace) (now : Nat)
    (hinv : statusInvariant db) : statusInvariant (save_entry db e now) := by
  cases he : e.trace_hi_with_think with
  | some h =>
    by_cases hne : h ≠ ""
    · have heq : save_entry db e now =
          { rows := db.rows ++ [completedInsertRow db e h now], nextId := db.nextId + 1 } := by
        simp [save_entry, he, hne]
      rw [heq]
      intro r hr
      simp only [List.mem_append, List.mem_singleton] at hr
      rcases hr with hr | rfl
      · exact hinv r hr
      · exact completedInsertRow_invariant db e h now hne
    · have heq : save_entry db e now =
          { rows := db.rows ++ [pendingInsertRow db e now], nextId := db.nextId + 1 } := by
        simp [save_entry, he, hne]
      rw [heq]
      intro r hr
      simp only [List.mem_append, List.mem_singleton] at hr
      rcases hr with hr | rfl
      · exact hinv r hr
      · exact pendingInsertRow_invariant db e now
  | none =>
    have heq : save_entry db e now =
        { rows := db.rows ++ [pendingInsertRow db e now], nextId := db.nextId + 1 } := by
      simp [save_entry, he]
    rw [heq]
    intro r hr
    simp only [List.mem_append, List.mem_singleton] at hr
    rcases hr with hr | rfl
    · exact hinv r hr
    · exact pendingInsertRow_invariant db e now

/-- `save_to_database` preserves the invariant. -/
theorem statusInvariant_save_to_database (entries : List EntryWithTrace) :
    ∀ (db : Database) (now : Nat), statusInvariant db →
      statusInvariant (save_to_database db entries now) := by
  induction entries with
  | nil => intro db now hinv; exact hinv
  | cons e entries ih =>
    intro db now hinv
    exact ih (save_entry db e now) now (statusInvariant_save_entry db e now hinv)

/-- The record written by either UPDATE satisfies the invariant clause when
the text is non-empty. -/
theorem updatedRecord_invariant (r : TraceRecord) (hindi_trace : String) (now : Nat)
    (hne : hindi_trace ≠ "") :
    ({ r with trace_hi_with_think := some hindi_trace,
              translation_status := "completed",
              translated_at := some now } : TraceRecord).translation_status = "completed" ↔
      (({ r with trace_hi_with_think := some hindi_trace,
                 translation_status := "completed",
                 translated_at := some now } : TraceRecord).trace_hi_with_think ≠ none ∧
       ({ r with trace_hi_with_think := some hindi_trace,
                 translation_status := "completed",
                 translated_at := some now } : TraceRecord).trace_hi_with_think ≠ some "") := by
  constructor
  · intro _
    constructor
    · simp
    · simp [hne]
  · intro _
    rfl

/-- `update_translation_in_database` preserves the invariant when called with
a non-empty text. -/
theorem statusInvariant_update (db : Database) (trace_id : Nat) (hindi_trace : String)
    (now : Nat) (hne : hindi_trace ≠ "") (hinv : statusInvariant db) :
    statusInvariant (update_translation_in_database db trace_id hindi_trace now) := by
  intro r hr
  unfold update_translation_in_database at hr
  simp only [List.mem_map] at hr
  rcases hr with ⟨r0, hr0, rfl⟩
  by_cases hid : r0.id = trace_id
  · rw [if_pos hid]
    exact updatedRecord_invariant r0 hindi_trace now hne
  · rw [if_neg hid]
    exact hinv r0 hr0

/-- `inline_update_translation` preserves the invariant when called with a
non-empty text. -/
theorem statusInvariant_inline_update (db : Database) (title trace_en hindi_trace : String)
    (now : Nat) (hne : hindi_trace ≠ "") (hinv : statusInvariant db) :
    statusInvariant (inline_update_translation db title trace_en hindi_trace now) := by
  intro r hr
  unfold inline_update_translation at hr
  simp only [List.mem_map] at hr
  rcases hr with ⟨r0, hr0, rfl⟩
  by_cases hcond : r0.title = title ∧ r0.trace_en_with_think = trace_en
  · rw [if_pos hcond]
    exact updatedRecord_invariant r0 hindi_trace now hne
  · rw [if_neg hcond]
    exact hinv r0 hr0

/-- One step of a run preserves the invariant under the non-empty-text
restriction. -/
theorem statusInvariant_applyOp (db : Database) (op : StoreOp)
    (hop : opHasNonEmptyText op) (hdb : statusInvariant db) :
    statusInvariant (applyOp db op) := by
  cases op with
  | save entries now => exact statusInvariant_save_to_database entries db now hdb
  | update trace_id hindi_trace now =>
    exact statusInvariant_update db trace_id hindi_trace now hop hdb
  | inlineUpdate title trace_en hindi_trace now =>
    exact statusInvariant_inline_update db title trace_en hindi_trace now hop hdb

/-- Invariant preservation along a whole run of store operations. -/
theorem statusInvariant_foldl : ∀ (ops : List StoreOp) (db : Database),
    statusInvariant db → (∀ op ∈ ops, opHasNonEmptyText op) →
    statusInvariant (ops.foldl applyOp db)
  | [], _, hdb, _ => hdb
  | op :: ops, db, hdb, hops =>
    statusInvariant_foldl ops (applyOp db op)
      (statusInvariant_applyOp db op (hops op (List.mem_cons_self op ops)) hdb)
      (fun o ho => hops o (List.mem_cons_of_mem op ho))

/-- C2 amended. The §3 invariant — `translation_status = 'completed'` iff the
translation is non-null and non-empty — holds after any sequence of the
store's operations (saves, id-keyed updates, inline updates) started from a
store satisfying it, PROVIDED every update supplies a non-empty text. The
unamended claim is false: an update with the empty string (never produced by
the Translation Engine, but accepted by the store operation) breaks the
invariant, as `C2_counterexample` shows. -/
theorem C2_amended_invariant_preserved (ops : List StoreOp) (db : Database)
    (hdb : statusInvariant db) (hops : ∀ op ∈ ops, opHasNonEmptyText op) :
    statusInvariant (ops.foldl applyOp db) :=
  statusInvariant_foldl ops db hdb hops

/-- Witness for the amended C2: save one pending record, then update it with
a non-empty translation; the invariant holds at the end. -/
theorem C2_witness :
    statusInvariant (List.foldl applyOp setup_database
      [StoreOp.save [{ title := "Two Sum", content := "c", trace_en_with_think := "t",
                       trace_hi_with_think := none }] 0,
       StoreOp.update 1 "anuvaad" 1]) :=
  C2_amended_invariant_preserved
    [StoreOp.save [{ title := "Two Sum", content := "c", trace_en_with_think := "t",
                     trace_hi_with_think := none }] 0,
     StoreOp.update 1 "anuvaad" 1]
    setup_database (by decide) (by decide)
